import Mathlib

/-!
Shallow embedding of `src/mausignald/rpc.py` (`SignaldRPCClient`):
the request/response registry, the event-handler dispatch, and the
request-sending path of the signald RPC client.

Modelling conventions:
* JSON values parsed by `json.loads` are `JValue` (arrays and objects are
  encoded as their own cons spines so the inductive is not nested); a parsed
  frame (a Python dict) is an association list `Req` with first-match lookup
  (dict keys are unique, so this agrees with dict semantics).
* A Python value that may be `None` is `Option JValue`; JSON `null` and an
  absent key both become `none` via `pyGet`, matching `dict.get`.
* `asyncio.Future` objects live in a heap `futures : List (Nat × FutureState)`
  addressed by `Nat` references, so object identity (needed for the
  idempotence of `_wait_response`) and settle-once semantics
  (`InvalidStateError` on a done future) are explicit.
* UUID request ids are `Nat` (only their equality matters here).
* Event handlers are identified by `Nat`; whether a handler raises on a given
  payload is supplied by an oracle `behave : Nat → Req → Bool`
  (`true` = the `await handler(req)` call raises an exception).
* Exceptions that escape a modelled function are returned as `Option PyExc`;
  Python exceptions do not roll back prior state mutations, so each function
  returns the state as mutated up to the raise point.
* Logging and the prometheus counters are modelled only where a claim
  mentions them: the `result` label recorded by `EVENTS_COUNTER` and the
  "No handlers" warning appear in `DispatchOutcome`.
-/

/-- A parsed JSON value. Arrays are `arrNil`/`arrCons` spines and objects are
`objNil`/`objCons` spines, which represent exactly the same trees as lists
while keeping the inductive non-nested. -/
inductive JValue where
  | null
  | bool (b : Bool)
  | num (n : Int)
  | str (s : String)
  | arrNil
  | arrCons (head tail : JValue)
  | objNil
  | objCons (key : String) (value tail : JValue)
deriving DecidableEq, Repr

/-- A parsed frame: the Python dict produced by `json.loads` on one line. -/
abbrev Req := List (String × JValue)

/-- First-match association-list lookup (dict indexing / `in` membership). -/
def lookupKV {α β : Type} [DecidableEq α] : List (α × β) → α → Option β
  | [], _ => none
  | (k, v) :: rest, key => if k = key then some v else lookupKV rest key

/-- `dict.pop(key)`: the stored value together with the dict without that key,
or `none` when the key is absent (Python raises `KeyError`, caught at the
single call site in `_run_response_handlers`). -/
def popKV {α β : Type} [DecidableEq α] : List (α × β) → α → Option (β × List (α × β))
  | [], _ => none
  | (k, v) :: rest, key =>
      if k = key then some (v, rest)
      else match popKV rest key with
        | none => none
        | some (w, rest2) => some (w, (k, v) :: rest2)

/-- In-place replacement of the value stored at `key` (no-op if absent). -/
def updateKV {α β : Type} [DecidableEq α] : List (α × β) → α → β → List (α × β)
  | [], _, _ => []
  | (k, v) :: rest, key, nv =>
      if k = key then (key, nv) :: rest else (k, v) :: updateKV rest key nv

/-- `req.get(key)`: Python `None` (`none` here) both when the key is absent
and when its JSON value is `null`. -/
def pyGet (req : Req) (key : String) : Option JValue :=
  match lookupKV req key with
  | none => none
  | some .null => none
  | some v => some v

/-- Lookup inside a JSON object spine. -/
def jlookup : JValue → String → Option JValue
  | .objCons k v rest, key => if k = key then some v else jlookup rest key
  | _, _ => none

/-- `isinstance(v, (str, dict))` for a JSON value. -/
def isStrOrDict : JValue → Bool
  | .str _ => true
  | .objNil => true
  | .objCons _ _ _ => true
  | _ => false

/-- Outcome of subscripting a Python value: `v[key]`. `None`, strings,
numbers, booleans and lists raise `TypeError`; a dict without the key raises
`KeyError`. -/
inductive SubErr where
  | keyError
  | typeError
deriving DecidableEq, Repr

/-- `v[key]` for `v` an optional JSON value (`none` = Python `None`);
a stored `null` is returned as Python `None`. -/
def subscr (v : Option JValue) (key : String) : Except SubErr (Option JValue) :=
  match v with
  | none => .error .typeError
  | some .objNil => .error .keyError
  | some (.objCons k w rest) =>
      match jlookup (.objCons k w rest) key with
      | some .null => .ok none
      | some x => .ok (some x)
      | none => .error .keyError
  | some _ => .error .typeError

/-- The error values raised through request waiters
(`mausignald.errors`; their construction lives outside `rpc.py`, so
`ResponseError` — built by `make_response_error(req)` — is modelled as
carrying the whole response frame, and `UnexpectedError` as carrying the
`data["message"]` value it was given). -/
inductive RPCError where
  | NotConnected (msg : String)
  | UnexpectedError (msg : Option JValue)
  | ResponseError (req : Req)
  | UnexpectedResponse (respType : String) (data : Option JValue)
deriving DecidableEq, Repr

/-- The state of one `asyncio.Future`: pending, or settled exactly once with
a result (`set_result`) or an exception (`set_exception`). -/
inductive FutureState where
  | pending
  | result (respType : String) (data : Option JValue)
  | exc (e : RPCError)
deriving DecidableEq, Repr

/-- Python exceptions that escape the modelled functions uncaught. -/
inductive PyExc where
  | typeError
  | invalidState
deriving DecidableEq, Repr

/-- The synthetic connect event name. -/
def CONNECT_EVENT : String := "_socket_connected"

/-- The synthetic disconnect event name. -/
def DISCONNECT_EVENT : String := "_socket_disconnected"

/-- The mutable state of a `SignaldRPCClient` that the verified operations
touch: the `_response_waiters` registry (request id → future reference), the
future heap with a fresh-reference counter, the `_rpc_event_handlers` table,
and the connection fields `_writer` (present?) and `is_connected`. -/
structure ClientState where
  waiters : List (Nat × Nat)
  futures : List (Nat × FutureState)
  nextFuture : Nat
  handlers : List (String × List Nat)
  writer : Bool
  is_connected : Bool
deriving DecidableEq, Repr

/-- `_wait_response`: look up the waiter for `req_id`, creating and
registering a fresh future when none exists; returns the future (reference)
and the updated state. -/
def wait_response (s : ClientState) (reqId : Nat) : Nat × ClientState :=
  match lookupKV s.waiters reqId with
  | some f => (f, s)
  | none =>
      (s.nextFuture,
        { s with
          waiters := s.waiters ++ [(reqId, s.nextFuture)],
          futures := s.futures ++ [(s.nextFuture, .pending)],
          nextFuture := s.nextFuture + 1 })

theorem lookupKV_append_of_none {α β : Type} [DecidableEq α]
    (l l2 : List (α × β)) (key : α) (h : lookupKV l key = none) :
    lookupKV (l ++ l2) key = lookupKV l2 key := by
  induction l with
  | nil => rfl
  | cons p rest ih =>
      simp only [lookupKV] at h ⊢
      by_cases hk : p.1 = key
      · rw [if_pos hk] at h; exact absurd h (by simp)
      · rw [if_neg hk] at h ⊢
        exact ih h

/-- `future.set_result` / `future.set_exception`: settles a pending future;
on an already-done future asyncio raises `InvalidStateError`, which none of
the call sites in `rpc.py` catch. -/
def futSet (s : ClientState) (f : Nat) (v : FutureState) : ClientState × Option PyExc :=
  if lookupKV s.futures f = some .pending then
    ({ s with futures := updateKV s.futures f v }, none)
  else (s, some .invalidState)

/-- The guard `"error" in req and isinstance(req["error"], (str, dict))`. -/
def hasErrorField (req : Req) : Bool :=
  match lookupKV req "error" with
  | some v => isStrOrDict v
  | none => false

/-- The `NotConnected` message used by `_abandon_responses`. -/
def abandonMsg : String := "Disconnected from signald before RPC completed"

/-- `_run_response_handlers(req_id, command, req)`: pop the waiter for
`req_id` (log and return if none), then settle it — `UnexpectedError` for the
synthetic `unexpected_error` type (default message when `data["message"]`
raises `KeyError`; the `TypeError` from subscripting `None` is NOT caught and
escapes), `make_response_error(req)` when the frame has a string-or-dict
`error` field, and success `(command, data)` otherwise. -/
def run_response_handlers (s : ClientState) (reqId : Nat) (command : String)
    (req : Req) : ClientState × Option PyExc :=
  match popKV s.waiters reqId with
  | none => (s, none)
  | some (f, rest) =>
      let s1 : ClientState := { s with waiters := rest }
      let data : Option JValue := pyGet req "data"
      if command = "unexpected_error" then
        match subscr data "message" with
        | .ok m => futSet s1 f (.exc (.UnexpectedError m))
        | .error .keyError =>
            futSet s1 f (.exc (.UnexpectedError (some (.str "Unexpected error with no message"))))
        | .error .typeError => (s1, some .typeError)
      else if hasErrorField req then
        futSet s1 f (.exc (.ResponseError req))
      else
        futSet s1 f (.result command data)

/-- One iteration of the `_abandon_responses` loop body for the waiter
future `f`: `if not waiter.done(): waiter.set_exception(NotConnected(...))`. -/
def abandonOne (futs : List (Nat × FutureState)) (f : Nat) : List (Nat × FutureState) :=
  match lookupKV futs f with
  | some .pending => updateKV futs f (.exc (.NotConnected abandonMsg))
  | _ => futs

/-- The `_abandon_responses` loop over `self._response_waiters.items()`. -/
def abandonLoop (futs : List (Nat × FutureState)) : List (Nat × Nat) → List (Nat × FutureState)
  | [] => futs
  | (_, f) :: rest => abandonLoop (abandonOne futs f) rest

/-- `_abandon_responses`: fail every not-yet-done registered waiter with
`NotConnected`; the registry itself is not modified. -/
def abandon_responses (s : ClientState) : ClientState :=
  { s with futures := abandonLoop s.futures s.waiters }

/-- What `_run_rpc_handler` records: the handlers awaited (in order), the
`result` label given to `EVENTS_COUNTER`, and whether the "No handlers for
RPC request" warning was logged. -/
structure DispatchOutcome where
  invoked : List Nat
  result : String
  warned : Bool
deriving DecidableEq, Repr

/-- The `for handler in handlers` loop of `_run_rpc_handler`: every handler
is awaited, each exception is caught individually and only flips the `error`
flag. Returns the invocation trace and the final flag. -/
def runHandlers (behave : Nat → Req → Bool) (req : Req) :
    List Nat → Bool → List Nat × Bool
  | [], err => ([], err)
  | h :: hs, err =>
      let r := runHandlers behave req hs (err || behave h req)
      (h :: r.1, r.2)

/-- `_run_rpc_handler(command, req)`: a `KeyError` on the handler-table
lookup records `unhandled` and warns; otherwise all handlers run and the
outcome is `error` when any raised, else `success`. -/
def run_rpc_handler (table : List (String × List Nat)) (behave : Nat → Req → Bool)
    (command : String) (req : Req) : DispatchOutcome :=
  match lookupKV table command with
  | none => ⟨[], "unhandled", true⟩
  | some hs =>
      let r := runHandlers behave req hs false
      ⟨r.1, if r.2 then "error" else "success", false⟩

/-- `dict.setdefault(method, [])`: returns the stored list, inserting an
empty one first when the key is absent. -/
def setdefault (table : List (String × List Nat)) (method : String) :
    List (String × List Nat) × List Nat :=
  match lookupKV table method with
  | some l => (table, l)
  | none => (table ++ [(method, [])], [])

/-- Python `list.remove(x)`: drop the first occurrence, or `none` when the
element is absent (Python raises `ValueError`). -/
def listRemove (x : Nat) : List Nat → Option (List Nat)
  | [] => none
  | y :: ys => if y = x then some ys else (listRemove x ys).map (y :: ·)

/-- `add_rpc_handler(method, handler)`:
`self._rpc_event_handlers.setdefault(method, []).append(handler)`. -/
def add_rpc_handler (table : List (String × List Nat)) (method : String)
    (handler : Nat) : List (String × List Nat) :=
  let p := setdefault table method
  updateKV p.1 method (p.2 ++ [handler])

/-- `remove_rpc_handler(method, handler)`:
`self._rpc_event_handlers.setdefault(method, []).remove(handler)`; the `Bool`
is whether `ValueError` was raised (the `setdefault` insertion survives the
raise). -/
def remove_rpc_handler (table : List (String × List Nat)) (method : String)
    (handler : Nat) : List (String × List Nat) × Bool :=
  let p := setdefault table method
  match listRemove handler p.2 with
  | none => (p.1, true)
  | some l2 => (updateKV p.1 method l2, false)

/-- `{"id": str(req_id), "type": command, **data}` — later keyword keys
override the `id`/`type` entries exactly as the dict literal does. -/
def mkWireReq (reqId : Nat) (command : String) (data : Req) : Req :=
  data.foldl
    (fun r p =>
      if (lookupKV r p.1).isSome then updateKV r p.1 p.2 else r ++ [p])
    [("id", .str (toString reqId)), ("type", .str command)]

/-- The synchronous prefix of `_raw_request` (through `_create_request` and
`_send_request`, i.e. everything before the response is awaited): the waiter
is registered first, then the send raises `NotConnected` when `_writer` is
absent. The state is returned as mutated at the raise point. -/
structure RawRequestStart where
  state : ClientState
  future : Nat
  wire : Req
  sendError : Option RPCError
deriving DecidableEq, Repr

/-- `_raw_request` up to (and including) `await self._send_request(data)`. -/
def raw_request_start (s : ClientState) (reqId : Nat) (command : String)
    (data : Req) : RawRequestStart :=
  let w := wait_response s reqId
  let req := mkWireReq reqId command data
  if w.2.writer then
    ⟨w.2, w.1, req, none⟩
  else
    ⟨w.2, w.1, req, some (.NotConnected "Not connected to signald")⟩

/-- `await future` once the response has been processed: the settled value,
or `none` when the future is still pending (the await would never return). -/
def awaitFuture (s : ClientState) (f : Nat) :
    Option (Except RPCError (String × Option JValue)) :=
  match lookupKV s.futures f with
  | some (.result c d) => some (.ok (c, d))
  | some (.exc e) => some (.error e)
  | _ => none

/-- End-to-end `_request(command, expected_response, **data)` against a
single response frame delivered by the read loop: register + send
(`_raw_request`), let `_run_response_handlers` process the frame, await the
waiter, then compare `resp_type` with `expected_response`
(`UnexpectedResponse` on mismatch). `none` means the call never returns. -/
def request_roundtrip (s0 : ClientState) (reqId : Nat) (command : String)
    (expected : String) (data : Req) (respId : Nat) (respType : String)
    (resp : Req) : Option (Except RPCError (Option JValue)) :=
  let st := raw_request_start s0 reqId command data
  match st.sendError with
  | some e => some (.error e)
  | none =>
      let r := run_response_handlers st.state respId respType resp
      match awaitFuture r.1 st.future with
      | some (.ok (t, d)) =>
          if t = expected then some (.ok d)
          else some (.error (.UnexpectedResponse t d))
      | some (.error e) => some (.error e)
      | none => none

/-- The handler identity of the bound method `self._abandon_responses`,
registered for the synthetic disconnect event in `__init__`. -/
def abandonHandlerId : Nat := 0

/-- The client state right after `__init__` (disconnected, empty registry,
`CONNECT_EVENT` mapped to `[]` and `DISCONNECT_EVENT` to
`[_abandon_responses]`). -/
def initState : ClientState :=
  { waiters := []
    futures := []
    nextFuture := 0
    handlers := [(CONNECT_EVENT, []), (DISCONNECT_EVENT, [abandonHandlerId])]
    writer := false
    is_connected := false }

/-- `initState` once `_communicate_forever` has opened the connection
(`_writer` present, `is_connected` set). -/
def connectedState : ClientState :=
  { initState with writer := true, is_connected := true }

/-- A connected client with one in-flight request: id 7 waiting on the
pending future 0. -/
def sEx : ClientState :=
  { connectedState with waiters := [(7, 0)], futures := [(0, .pending)], nextFuture := 1 }

theorem lookupKV_updateKV_self {α β : Type} [DecidableEq α]
    (l : List (α × β)) (k : α) (v w : β) (h : lookupKV l k = some w) :
    lookupKV (updateKV l k v) k = some v := by
  induction l with
  | nil => simp [lookupKV] at h
  | cons p rest ih =>
      simp only [lookupKV, updateKV] at h ⊢
      by_cases hk : p.1 = k
      · rw [if_pos hk]
        simp [lookupKV]
      · rw [if_neg hk] at h
        rw [if_neg hk]
        simp only [lookupKV, if_neg hk]
        exact ih h

theorem lookupKV_updateKV_ne {α β : Type} [DecidableEq α]
    (l : List (α × β)) (k k2 : α) (v : β) (h : k2 ≠ k) :
    lookupKV (updateKV l k v) k2 = lookupKV l k2 := by
  induction l with
  | nil => rfl
  | cons p rest ih =>
      by_cases hk : p.1 = k
      · simp only [updateKV, if_pos hk, lookupKV]
        rw [if_neg (fun hkk : k = k2 => h hkk.symm),
          if_neg (fun hp : p.1 = k2 => h (hk.symm.trans hp).symm)]
      · simp only [updateKV, if_neg hk, lookupKV]
        by_cases hp : p.1 = k2
        · rw [if_pos hp, if_pos hp]
        · rw [if_neg hp, if_neg hp]
          exact ih

theorem updateKV_of_lookup_none {α β : Type} [DecidableEq α]
    (l : List (α × β)) (k : α) (v : β) (h : lookupKV l k = none) :
    updateKV l k v = l := by
  induction l with
  | nil => rfl
  | cons p rest ih =>
      simp only [lookupKV] at h
      by_cases hk : p.1 = k
      · rw [if_pos hk] at h; exact absurd h (by simp)
      · rw [if_neg hk] at h
        simp only [updateKV, if_neg hk]
        rw [ih h]

theorem popKV_of_lookup_none {α β : Type} [DecidableEq α]
    (l : List (α × β)) (k : α) (h : lookupKV l k = none) :
    popKV l k = none := by
  induction l with
  | nil => rfl
  | cons p rest ih =>
      simp only [lookupKV] at h
      by_cases hk : p.1 = k
      · rw [if_pos hk] at h; exact absurd h (by simp)
      · rw [if_neg hk] at h
        simp only [popKV, if_neg hk, ih h]

theorem futSet_waiters (s : ClientState) (f : Nat) (v : FutureState) :
    (futSet s f v).1.waiters = s.waiters := by
  unfold futSet
  split <;> rfl

theorem futSet_handlers (s : ClientState) (f : Nat) (v : FutureState) :
    (futSet s f v).1.handlers = s.handlers := by
  unfold futSet
  split <;> rfl

/-- Every branch of `_run_response_handlers` that passes the pop leaves the
registry at exactly the popped remainder. -/
theorem run_response_handlers_waiters (s : ClientState) (rid : Nat)
    (cmd : String) (req : Req) (f : Nat) (rest : List (Nat × Nat))
    (hpop : popKV s.waiters rid = some (f, rest)) :
    (run_response_handlers s rid cmd req).1.waiters = rest := by
  unfold run_response_handlers
  rw [hpop]
  dsimp only
  split
  · split
    · rw [futSet_waiters]
    · rw [futSet_waiters]
    · rfl
  · split
    · rw [futSet_waiters]
    · rw [futSet_waiters]

theorem abandonOne_lookup_ne (futs : List (Nat × FutureState)) (f g : Nat)
    (h : g ≠ f) : lookupKV (abandonOne futs f) g = lookupKV futs g := by
  unfold abandonOne
  split
  · exact lookupKV_updateKV_ne futs f g _ h
  · rfl

theorem abandonOne_lookup_of_ne_pending (futs : List (Nat × FutureState))
    (f g : Nat) (st : FutureState) (h : lookupKV futs g = some st)
    (hst : st ≠ .pending) : lookupKV (abandonOne futs f) g = some st := by
  by_cases hgf : g = f
  · subst hgf
    unfold abandonOne
    split
    · rename_i hf
      rw [h] at hf
      exact absurd (Option.some.inj hf) hst
    · exact h
  · rw [abandonOne_lookup_ne futs f g hgf]
    exact h

theorem abandonOne_lookup_none (futs : List (Nat × FutureState)) (f g : Nat)
    (h : lookupKV futs g = none) : lookupKV (abandonOne futs f) g = none := by
  by_cases hgf : g = f
  · subst hgf
    unfold abandonOne
    split
    · rename_i hf
      rw [h] at hf
      exact absurd hf (by simp)
    · exact h
  · rw [abandonOne_lookup_ne futs f g hgf]
    exact h

theorem abandonLoop_lookup_of_ne_pending (ws : List (Nat × Nat)) :
    ∀ (futs : List (Nat × FutureState)) (g : Nat) (st : FutureState),
    lookupKV futs g = some st → st ≠ .pending →
    lookupKV (abandonLoop futs ws) g = some st := by
  induction ws with
  | nil => intro futs g st h _; exact h
  | cons p rest ih =>
      intro futs g st h hst
      exact ih (abandonOne futs p.2) g st
        (abandonOne_lookup_of_ne_pending futs p.2 g st h hst) hst

theorem abandonLoop_lookup_none (ws : List (Nat × Nat)) :
    ∀ (futs : List (Nat × FutureState)) (g : Nat),
    lookupKV futs g = none → lookupKV (abandonLoop futs ws) g = none := by
  induction ws with
  | nil => intro futs g h; exact h
  | cons p rest ih =>
      intro futs g h
      exact ih (abandonOne futs p.2) g (abandonOne_lookup_none futs p.2 g h)

theorem abandonLoop_abandons (ws : List (Nat × Nat)) :
    ∀ (futs : List (Nat × FutureState)) (rid g : Nat),
    (rid, g) ∈ ws → lookupKV futs g = some .pending →
    lookupKV (abandonLoop futs ws) g = some (.exc (.NotConnected abandonMsg)) := by
  induction ws with
  | nil => intro _ _ _ hmem; exact absurd hmem (List.not_mem_nil _)
  | cons p rest ih =>
      obtain ⟨r0, f0⟩ := p
      intro futs rid g hmem hpend
      simp only [abandonLoop]
      by_cases hgf : g = f0
      · subst hgf
        have h1 : lookupKV (abandonOne futs g) g
            = some (.exc (.NotConnected abandonMsg)) := by
          unfold abandonOne
          rw [hpend]
          exact lookupKV_updateKV_self futs g _ _ hpend
        exact abandonLoop_lookup_of_ne_pending rest (abandonOne futs g) g _ h1 (by simp)
      · have hrest : (rid, g) ∈ rest := by
          rcases List.mem_cons.mp hmem with heq | hr
          · exact absurd (congrArg Prod.snd heq) hgf
          · exact hr
        have h1 : lookupKV (abandonOne futs f0) g = some .pending := by
          rw [abandonOne_lookup_ne futs f0 g hgf]
          exact hpend
        exact ih (abandonOne futs f0) rid g hrest h1

theorem abandonLoop_no_pending (ws : List (Nat × Nat)) (futs : List (Nat × FutureState))
    (rid g : Nat) (hmem : (rid, g) ∈ ws) :
    lookupKV (abandonLoop futs ws) g ≠ some .pending := by
  cases h : lookupKV futs g with
  | none =>
      rw [abandonLoop_lookup_none ws futs g h]
      simp
  | some st =>
      by_cases hst : st = FutureState.pending
      · subst hst
        rw [abandonLoop_abandons ws futs rid g hmem h]
        simp
      · rw [abandonLoop_lookup_of_ne_pending ws futs g st h hst]
        exact fun hc => hst (Option.some.inj hc)

theorem abandonOne_of_not_pending (futs : List (Nat × FutureState)) (f : Nat)
    (h : lookupKV futs f ≠ some .pending) : abandonOne futs f = futs := by
  unfold abandonOne
  split
  · rename_i hf
    exact absurd hf h
  · rfl

theorem abandonLoop_of_no_pending (ws : List (Nat × Nat)) :
    ∀ (futs : List (Nat × FutureState)),
    (∀ rid f, (rid, f) ∈ ws → lookupKV futs f ≠ some .pending) →
    abandonLoop futs ws = futs := by
  induction ws with
  | nil => intro _ _; rfl
  | cons p rest ih =>
      intro futs h
      have h0 : abandonOne futs p.2 = futs :=
        abandonOne_of_not_pending futs p.2 (h p.1 p.2 (by left))
      simp only [abandonLoop, h0]
      exact ih futs (fun rid f hmem => h rid f (List.mem_cons_of_mem p hmem))

theorem abandon_responses_idem (s : ClientState) :
    abandon_responses (abandon_responses s) = abandon_responses s := by
  unfold abandon_responses
  simp only
  congr 1
  exact abandonLoop_of_no_pending s.waiters (abandonLoop s.futures s.waiters)
    (fun rid f hmem => abandonLoop_no_pending s.waiters s.futures rid f hmem)

theorem runHandlers_invoked (behave : Nat → Req → Bool) (req : Req) :
    ∀ (hs : List Nat) (err : Bool), (runHandlers behave req hs err).1 = hs := by
  intro hs
  induction hs with
  | nil => intro err; rfl
  | cons h rest ih =>
      intro err
      simp only [runHandlers, ih]

theorem runHandlers_flag (behave : Nat → Req → Bool) (req : Req) :
    ∀ (hs : List Nat) (err : Bool),
    (runHandlers behave req hs err).2 = (err || hs.any (fun h => behave h req)) := by
  intro hs
  induction hs with
  | nil => intro err; simp [runHandlers]
  | cons h rest ih =>
      intro err
      simp only [runHandlers, ih, List.any_cons, Bool.or_assoc]

theorem wait_response_writer (s : ClientState) (rid : Nat) :
    (wait_response s rid).2.writer = s.writer := by
  unfold wait_response
  split <;> rfl

theorem wait_response_lookup (s : ClientState) (rid : Nat) :
    lookupKV (wait_response s rid).2.waiters rid = some (wait_response s rid).1 := by
  unfold wait_response
  cases h : lookupKV s.waiters rid with
  | some f => exact h
  | none =>
      simp only
      rw [lookupKV_append_of_none s.waiters _ rid h]
      simp [lookupKV]

/-- C1 counterexample: issuing a request on the freshly constructed
(disconnected) client fails with NotConnected, yet the registry is NOT left
as it was — `_create_request` has already registered a waiter for the fresh
id before `_send_request` raises. -/
theorem C1_counterexample :
    (raw_request_start initState 0 "ping" []).sendError
      = some (.NotConnected "Not connected to signald")
    ∧ (raw_request_start initState 0 "ping" []).state.waiters ≠ initState.waiters := by
  constructor
  · rfl
  · decide

/-- C1 (amended): a request issued while the writer handle is absent fails
with NotConnected, but the waiter for the freshly generated id has already
been registered by `_create_request` and remains in `_response_waiters`
after the failure. -/
theorem C1_request_while_disconnected (s : ClientState) (rid : Nat)
    (cmd : String) (data : Req) (h : s.writer = false) :
    (raw_request_start s rid cmd data).sendError
      = some (.NotConnected "Not connected to signald")
    ∧ lookupKV (raw_request_start s rid cmd data).state.waiters rid
        = some (raw_request_start s rid cmd data).future := by
  constructor
  · unfold raw_request_start
    simp only [wait_response_writer, h, Bool.false_eq_true, if_false]
  · unfold raw_request_start
    simp only [wait_response_writer, h, Bool.false_eq_true, if_false]
    exact wait_response_lookup s rid

/-- C1 witness: the amended statement evaluated on the freshly constructed
client. -/
theorem C1_request_while_disconnected_witness :
    (raw_request_start initState 0 "ping" []).sendError
      = some (.NotConnected "Not connected to signald")
    ∧ lookupKV (raw_request_start initState 0 "ping" []).state.waiters 0
        = some (raw_request_start initState 0 "ping" []).future :=
  C1_request_while_disconnected initState 0 "ping" [] rfl

/-- C2 counterexample: after `_abandon_responses` resolves the in-flight
waiter of `sEx` with NotConnected, its id 7 is still registered in
`_response_waiters` — a resolved waiter remains registered, contradicting
the claim that resolution always removes the id. -/
theorem C2_counterexample :
    lookupKV (abandon_responses sEx).futures 0
      = some (.exc (.NotConnected abandonMsg))
    ∧ lookupKV (abandon_responses sEx).waiters 7 = some 0 := by
  constructor
  · decide
  · decide

/-- C2 (amended): a waiter resolved by a matching response is popped from
`_response_waiters` at the moment of resolution; `_abandon_responses` leaves
the registry untouched while failing every still-pending registered waiter
with NotConnected, skips already-settled ones, and a repeated abandonment
pass changes nothing — so an in-flight request is resolved with NotConnected
exactly once but its id stays registered until a later response pops it. -/
theorem C2_waiter_resolution (s : ClientState) :
    (∀ rid f rest cmd req, popKV s.waiters rid = some (f, rest) →
        (run_response_handlers s rid cmd req).1.waiters = rest)
    ∧ (abandon_responses s).waiters = s.waiters
    ∧ (∀ g st, lookupKV s.futures g = some st → st ≠ .pending →
        lookupKV (abandon_responses s).futures g = some st)
    ∧ (∀ rid g, (rid, g) ∈ s.waiters → lookupKV s.futures g = some .pending →
        lookupKV (abandon_responses s).futures g
          = some (.exc (.NotConnected abandonMsg)))
    ∧ abandon_responses (abandon_responses s) = abandon_responses s := by
  refine ⟨?_, rfl, ?_, ?_, abandon_responses_idem s⟩
  · intro rid f rest cmd req hpop
    exact run_response_handlers_waiters s rid cmd req f rest hpop
  · intro g st h hst
    exact abandonLoop_lookup_of_ne_pending s.waiters s.futures g st h hst
  · intro rid g hmem hpend
    exact abandonLoop_abandons s.waiters s.futures rid g hmem hpend

/-- C2 witness: the amended statement evaluated on the one-request client
`sEx`: a response pops the registry entry, abandonment fails the pending
future, and a second abandonment pass is a no-op. -/
theorem C2_waiter_resolution_witness :
    (run_response_handlers sEx 7 "msg" []).1.waiters = []
    ∧ lookupKV (abandon_responses sEx).futures 0
        = some (.exc (.NotConnected abandonMsg))
    ∧ abandon_responses (abandon_responses sEx) = abandon_responses sEx := by
  have h := C2_waiter_resolution sEx
  exact ⟨h.1 7 0 [] "msg" [] (by decide),
    h.2.2.2.1 7 0 (by decide) (by decide),
    h.2.2.2.2⟩

/-- C3 counterexample: a response frame whose `error` field holds the number
42 (neither string nor dict) does NOT fail the waiter — the
`isinstance(req["error"], (str, dict))` guard rejects it and the waiter is
resolved as a success. -/
theorem C3_counterexample :
    run_response_handlers sEx 7 "msg"
        [("id", .str "7"), ("type", .str "msg"), ("error", .num 42)]
      = ({ sEx with waiters := [], futures := [(0, .result "msg" none)] }, none) := by
  decide

/-- C3 (amended): for a response frame whose type is not `unexpected_error`
and whose id matches a registered, still-pending waiter, if the frame carries
an `error` field whose value is a string or a dict, the waiter is failed with
the ResponseError built from the frame — never resolved as success —
regardless of whether a `data` field is also present; an `error` value of any
other kind falls through to the success branch. -/
theorem C3_error_field_fails_waiter (s : ClientState) (rid f : Nat)
    (rest : List (Nat × Nat)) (cmd : String) (req : Req) (v : JValue)
    (hpop : popKV s.waiters rid = some (f, rest))
    (hfut : lookupKV s.futures f = some .pending)
    (hcmd : cmd ≠ "unexpected_error")
    (herr : lookupKV req "error" = some v)
    (hv : isStrOrDict v = true) :
    run_response_handlers s rid cmd req
      = ({ s with
            waiters := rest
            futures := updateKV s.futures f (.exc (.ResponseError req)) }, none) := by
  have he : hasErrorField req = true := by
    unfold hasErrorField
    rw [herr]
    exact hv
  unfold run_response_handlers
  rw [hpop]
  dsimp only
  rw [if_neg hcmd]
  rw [he]
  rw [if_pos rfl]
  unfold futSet
  dsimp only
  rw [if_pos hfut]

/-- C3 witness: the amended statement on a frame that carries both an
`error` string and a `data` field. -/
theorem C3_error_field_fails_waiter_witness :
    run_response_handlers sEx 7 "msg" [("error", .str "boom"), ("data", .objNil)]
      = ({ sEx with
            waiters := []
            futures :=
              [(0, .exc (.ResponseError [("error", .str "boom"), ("data", .objNil)]))] },
          none) :=
  C3_error_field_fails_waiter sEx 7 0 [] "msg"
    [("error", .str "boom"), ("data", .objNil)] (.str "boom")
    (by decide) (by decide) (by decide) (by decide) (by decide)

/-- C4: evaluating `_run_response_handlers` at the failing input — an
`unexpected_error` frame with no `data` field and a registered waiter. The
claim (and the code's own `except KeyError` default) intend an
UnexpectedError with a default message, but `data` is `None`, so
`data["message"]` raises `TypeError`, which `except KeyError` does not
catch: the exception escapes, and the waiter — already popped — is left
pending forever. By contrast a dict `data` without `message` does hit the
default-message fallback. -/
theorem C4_unexpected_error_without_data :
    run_response_handlers sEx 7 "unexpected_error"
        [("id", .str "7"), ("type", .str "unexpected_error")]
      = ({ sEx with waiters := [] }, some .typeError)
    ∧ lookupKV ({ sEx with waiters := [] } : ClientState).futures 0 = some .pending
    ∧ run_response_handlers sEx 7 "unexpected_error"
        [("id", .str "7"), ("type", .str "unexpected_error"), ("data", .objNil)]
      = ({ sEx with
            waiters := []
            futures :=
              [(0, .exc (.UnexpectedError
                (some (.str "Unexpected error with no message"))))] }, none) := by
  refine ⟨by decide, by decide, by decide⟩

/-- A handler oracle under which no handler ever raises. -/
def behaveNever : Nat → Req → Bool := fun _ _ => false

/-- A handler oracle under which exactly handler 2 raises. -/
def behaveMid : Nat → Req → Bool := fun h _ => h == 2

/-- C5 (confirmed): when the handler table maps the event to a non-empty
list, `_run_rpc_handler` awaits every handler in registration order (the
invocation trace is the whole list, whatever the oracle says), and the
recorded outcome is `error` when at least one handler raised and `success`
when none did. -/
theorem C5_dispatch_isolates_failures (table : List (String × List Nat))
    (behave : Nat → Req → Bool) (cmd : String) (req : Req) (hs : List Nat)
    (hlk : lookupKV table cmd = some hs) (_hne : hs ≠ []) :
    (run_rpc_handler table behave cmd req).invoked = hs
    ∧ ((∃ h ∈ hs, behave h req = true) →
        (run_rpc_handler table behave cmd req).result = "error")
    ∧ ((∀ h ∈ hs, behave h req = false) →
        (run_rpc_handler table behave cmd req).result = "success") := by
  unfold run_rpc_handler
  rw [hlk]
  dsimp only
  refine ⟨runHandlers_invoked behave req hs false, ?_, ?_⟩
  · intro hex
    rw [runHandlers_flag]
    have hany : hs.any (fun h => behave h req) = true := List.any_eq_true.mpr hex
    rw [hany]
    rfl
  · intro hall
    rw [runHandlers_flag]
    have hany : hs.any (fun h => behave h req) = false := by
      rw [List.any_eq_false]
      intro h hm
      rw [hall h hm]
      exact Bool.false_ne_true
    rw [hany]
    rfl

/-- C5 witness: three handlers with the middle one failing — all three run
and the aggregate outcome is `error`. -/
theorem C5_dispatch_isolates_failures_witness :
    (run_rpc_handler [("ev", [1, 2, 3])] behaveMid "ev" []).invoked = [1, 2, 3]
    ∧ (run_rpc_handler [("ev", [1, 2, 3])] behaveMid "ev" []).result = "error" := by
  have h := C5_dispatch_isolates_failures [("ev", [1, 2, 3])] behaveMid "ev" []
    [1, 2, 3] (by decide) (by decide)
  exact ⟨h.1, h.2.1 ⟨2, by decide, by decide⟩⟩

/-- C6 counterexample: an event name whose handler-table entry exists but is
the empty list (exactly the state `__init__` creates for the synthetic
connect event) dispatches with outcome `success` and no warning — not
`unhandled` as the claim requires for every name with zero handlers. -/
theorem C6_counterexample :
    run_rpc_handler [(CONNECT_EVENT, [])] behaveNever CONNECT_EVENT []
      = ⟨[], "success", false⟩ := by
  decide

/-- C6 (amended): dispatch records `unhandled` (with the warning, invoking
nothing and raising nothing) exactly for event names with NO entry in the
handler table; a name whose entry is an empty list instead records `success`
with no warning and no handler invoked. -/
theorem C6_unhandled_dispatch (table : List (String × List Nat))
    (behave : Nat → Req → Bool) (cmd : String) (req : Req) :
    (lookupKV table cmd = none →
        run_rpc_handler table behave cmd req = ⟨[], "unhandled", true⟩)
    ∧ (lookupKV table cmd = some [] →
        run_rpc_handler table behave cmd req = ⟨[], "success", false⟩) := by
  constructor
  · intro h
    unfold run_rpc_handler
    rw [h]
  · intro h
    unfold run_rpc_handler
    rw [h]
    rfl

/-- C6 witness: the amended statement on a table with no entry and on a
table with an empty entry. -/
theorem C6_unhandled_dispatch_witness :
    run_rpc_handler [] behaveNever "ev" [] = ⟨[], "unhandled", true⟩
    ∧ run_rpc_handler [("ev", [])] behaveNever "ev" [] = ⟨[], "success", false⟩ :=
  ⟨(C6_unhandled_dispatch [] behaveNever "ev" []).1 rfl,
   (C6_unhandled_dispatch [("ev", [])] behaveNever "ev" []).2 (by decide)⟩

/-- C7 (confirmed): on a connected client, `call("ping")` with expected
response type `"ping"` sends the frame `{"id": "0", "type": "ping"}`, and
when the daemon echoes `{"id": "0", "type": "ping"}` (no `data` field) the
request succeeds and returns the empty payload (Python `None`). -/
theorem C7_ping_roundtrip :
    request_roundtrip connectedState 0 "ping" "ping" [] 0 "ping"
        [("id", .str "0"), ("type", .str "ping")] = some (.ok none)
    ∧ (raw_request_start connectedState 0 "ping" []).wire
        = [("id", .str "0"), ("type", .str "ping")] :=
  ⟨rfl, by decide⟩

/-- C8 (confirmed): a response frame whose id has no registered waiter is
logged and discarded — `_run_response_handlers` raises nothing and returns
with the entire client state (registry, handler table, connection fields)
exactly as it was. -/
theorem C8_no_waiter_is_noop (s : ClientState) (rid : Nat) (cmd : String)
    (req : Req) (h : lookupKV s.waiters rid = none) :
    run_response_handlers s rid cmd req = (s, none) := by
  unfold run_response_handlers
  rw [popKV_of_lookup_none s.waiters rid h]

/-- C8 witness: a late error response for the unknown id 9 leaves the
connected client untouched. -/
theorem C8_no_waiter_is_noop_witness :
    run_response_handlers connectedState 9 "msg" [("error", .str "late")]
      = (connectedState, none) :=
  C8_no_waiter_is_noop connectedState 9 "msg" [("error", .str "late")] rfl

theorem wait_response_of_lookup (s : ClientState) (rid f : Nat)
    (h : lookupKV s.waiters rid = some f) : wait_response s rid = (f, s) := by
  unfold wait_response
  rw [h]

/-- C9 (confirmed): `_wait_response` is an idempotent lookup-or-create — a
second call with the same request id returns the very same future reference
and leaves the state (in particular `_response_waiters`) unchanged. -/
theorem C9_wait_response_idempotent (s : ClientState) (rid : Nat) :
    wait_response (wait_response s rid).2 rid = wait_response s rid := by
  rw [wait_response_of_lookup (wait_response s rid).2 rid (wait_response s rid).1
    (wait_response_lookup s rid)]

theorem listRemove_of_not_mem (x : Nat) :
    ∀ (l : List Nat), x ∉ l → listRemove x l = none := by
  intro l
  induction l with
  | nil => intro _; rfl
  | cons y ys ih =>
      intro h
      have hy : ¬ y = x := fun he => h (he ▸ List.mem_cons_self y ys)
      simp [listRemove, if_neg hy, ih (fun hm => h (List.mem_cons_of_mem y hm))]

theorem setdefault_lookup (table : List (String × List Nat)) (method : String) :
    lookupKV (setdefault table method).1 method = some (setdefault table method).2 := by
  unfold setdefault
  cases h : lookupKV table method with
  | some l => exact h
  | none =>
      dsimp only
      rw [lookupKV_append_of_none table _ method h]
      simp [lookupKV]

theorem setdefault_snd (table : List (String × List Nat)) (method : String) :
    (setdefault table method).2 = (lookupKV table method).getD [] := by
  unfold setdefault
  cases h : lookupKV table method <;> rfl

theorem setdefault_of_lookup (table : List (String × List Nat)) (method : String)
    (l : List Nat) (h : lookupKV table method = some l) :
    setdefault table method = (table, l) := by
  unfold setdefault
  rw [h]

theorem add_rpc_handler_lookup (table : List (String × List Nat))
    (method : String) (handler : Nat) :
    lookupKV (add_rpc_handler table method handler) method
      = some ((lookupKV table method).getD [] ++ [handler]) := by
  unfold add_rpc_handler
  rw [lookupKV_updateKV_self _ method _ _ (setdefault_lookup table method)]
  rw [setdefault_snd]

/-- C10 (confirmed): `remove_rpc_handler` raises ValueError whenever the
handler is not currently registered for the event; in all cases the call
leaves an entry (possibly the empty list) for that event in the handler
table; and after adding then removing an event's only handler, dispatching
that event records `success` (with no handler invoked), not `unhandled`. -/
theorem C10_remove_rpc_handler (table : List (String × List Nat))
    (method : String) (handler : Nat) :
    (handler ∉ (lookupKV table method).getD [] →
        (remove_rpc_handler table method handler).2 = true)
    ∧ (lookupKV (remove_rpc_handler table method handler).1 method).isSome = true
    ∧ ((lookupKV table method).getD [] = [] → ∀ behave req,
        run_rpc_handler
          (remove_rpc_handler (add_rpc_handler table method handler) method handler).1
          behave method req
        = ⟨[], "success", false⟩) := by
  refine ⟨?_, ?_, ?_⟩
  · intro h
    have hnm : handler ∉ (setdefault table method).2 := by
      rw [setdefault_snd]
      exact h
    unfold remove_rpc_handler
    dsimp only
    rw [listRemove_of_not_mem handler _ hnm]
  · unfold remove_rpc_handler
    dsimp only
    cases hr : listRemove handler (setdefault table method).2 with
    | none =>
        rw [setdefault_lookup]
        rfl
    | some l2 =>
        rw [lookupKV_updateKV_self _ method l2 _ (setdefault_lookup table method)]
        rfl
  · intro hemp behave req
    have h1 : lookupKV (add_rpc_handler table method handler) method
        = some [handler] := by
      rw [add_rpc_handler_lookup table method handler, hemp]
      rfl
    have hlr : listRemove handler [handler] = some [] := by
      simp [listRemove]
    have h2 : remove_rpc_handler (add_rpc_handler table method handler) method handler
        = (updateKV (add_rpc_handler table method handler) method [], false) := by
      unfold remove_rpc_handler
      dsimp only
      rw [setdefault_of_lookup _ method [handler] h1]
      dsimp only
      rw [hlr]
    have h3 : lookupKV
        (remove_rpc_handler (add_rpc_handler table method handler) method handler).1
        method = some [] := by
      rw [h2]
      exact lookupKV_updateKV_self _ method [] [handler] h1
    unfold run_rpc_handler
    rw [h3]
    rfl

/-- C10 witness: on an empty table, removing the unregistered handler 5
raises ValueError yet creates the entry, and add-then-remove leaves an empty
entry whose dispatch records `success`. -/
theorem C10_remove_rpc_handler_witness :
    (remove_rpc_handler [] "ev" 5).2 = true
    ∧ (lookupKV (remove_rpc_handler [] "ev" 5).1 "ev").isSome = true
    ∧ run_rpc_handler (remove_rpc_handler (add_rpc_handler [] "ev" 5) "ev" 5).1
        behaveNever "ev" [] = ⟨[], "success", false⟩ := by
  have h := C10_remove_rpc_handler [] "ev" 5
  exact ⟨h.1 (by decide), h.2.1, h.2.2 (by decide) behaveNever []⟩
